import Mathlib

/-!
Verification of the cybersorted-mcp job-orchestration core.

This file shallowly embeds the data model and operations of the repository:
  - src/jobs/models.py   (JobStatus, JobProgress, ScanResults, ...)
  - src/jobs/manager.py  (update_status, fail_job, complete_job)
  - src/jobs/dispatcher.py (launch_worker, _count_running_workers)
  - src/jobs/bridge.py   (sync_to_security_scan status mapping, error policy)
  - src/api/router.py    (cancel_scan path)
  - src/tools/scanning/web_application.py (polling loop)
  - workers/zap/agent.py (scoring, passive-scan loop, update_job, main)

Machine integers are modelled as Nat/Int; Firestore documents as records with
merge (partial-update) semantics; fallible external calls as explicit
parameters or Except results.
-/

/-- Python truthiness of an optional string: None and "" are falsy. -/
def pyTruthy : Option String → Bool
  | none => false
  | some s => s != ""

/-- Python `x or default` for an optional string. -/
def pyOr (o : Option String) (d : String) : String :=
  match o with
  | none => d
  | some s => if s = "" then d else s

/-! ## Data model (src/jobs/models.py) -/

/-- Lifecycle states for a pentest job (models.py JobStatus). -/
inductive JobStatus where
  | queued
  | dispatched
  | running
  | completed
  | failed
  | cancelled
deriving DecidableEq, Repr

/-- The string value of a status (the Python enum value). -/
def JobStatus.value : JobStatus → String
  | .queued => "queued"
  | .dispatched => "dispatched"
  | .running => "running"
  | .completed => "completed"
  | .failed => "failed"
  | .cancelled => "cancelled"

/-- Terminal statuses: COMPLETED, FAILED, CANCELLED. -/
def JobStatus.isTerminal : JobStatus → Bool
  | .completed => true
  | .failed => true
  | .cancelled => true
  | _ => false

/-- Real-time progress subrecord (models.py JobProgress).  The pydantic
fields carry `ge=0, le=100` bounds; we keep Int fields and state the bound
as the separate predicate JobProgress.valid, because the worker writes raw
dicts to Firestore without passing through this model. -/
structure JobProgress where
  phase : String := "queued"
  spider_progress : Int := 0
  active_scan_progress : Int := 0
  message : String := ""
deriving DecidableEq, Repr

/-- The pydantic Field(ge=0, le=100) constraints on both percentages. -/
def JobProgress.valid (p : JobProgress) : Prop :=
  0 ≤ p.spider_progress ∧ p.spider_progress ≤ 100 ∧
    0 ≤ p.active_scan_progress ∧ p.active_scan_progress ≤ 100

instance (p : JobProgress) : Decidable p.valid := by
  unfold JobProgress.valid; infer_instance

/-- Summary results from a completed scan (models.py ScanResults). -/
structure ScanResults where
  high : Nat := 0
  medium : Nat := 0
  low : Nat := 0
  informational : Nat := 0
  score : Int := 100
deriving DecidableEq, Repr

/-- A single vulnerability finding (models.py ScanAlert). -/
structure ScanAlert where
  name : String
  severity : String
  url : String := ""
  description : String := ""
  solution : String := ""
  cweid : String := ""
  wascid : String := ""
  confidence : String := ""
  reference : String := ""
deriving DecidableEq, Repr

/-- Operational statistics (models.py ScanStats). -/
structure ScanStats where
  urls_crawled : Nat := 0
  requests_sent : Nat := 0
  duration_seconds : Nat := 0
deriving DecidableEq, Repr

/-- The Firestore job document, restricted to the fields the verified
operations touch (models.py PentestJob).  Timestamps are abstract clock
values (Nat). -/
structure JobDoc where
  status : JobStatus := .queued
  container_id : Option String := none
  started_at : Option Nat := none
  completed_at : Option Nat := none
  error_message : Option String := none
  progress : JobProgress := {}
  results : Option ScanResults := none
  alerts : List ScanAlert := []
  scan_stats : Option ScanStats := none
deriving DecidableEq, Repr

/-- A partial update (the dict passed to Firestore `.update`): present
fields overwrite, absent fields are kept. -/
structure Patch where
  status : Option JobStatus := none
  container_id : Option String := none
  started_at : Option Nat := none
  completed_at : Option Nat := none
  error_message : Option String := none
  progress : Option JobProgress := none
  results : Option ScanResults := none
  alerts : Option (List ScanAlert) := none
  scan_stats : Option ScanStats := none
deriving DecidableEq, Repr

/-- Firestore merge semantics of `doc_ref.update(data)`. -/
def JobDoc.merge (doc : JobDoc) (p : Patch) : JobDoc where
  status := p.status.getD doc.status
  container_id := match p.container_id with
    | some v => some v
    | none => doc.container_id
  started_at := match p.started_at with
    | some v => some v
    | none => doc.started_at
  completed_at := match p.completed_at with
    | some v => some v
    | none => doc.completed_at
  error_message := match p.error_message with
    | some v => some v
    | none => doc.error_message
  progress := p.progress.getD doc.progress
  results := match p.results with
    | some v => some v
    | none => doc.results
  alerts := p.alerts.getD doc.alerts
  scan_stats := match p.scan_stats with
    | some v => some v
    | none => doc.scan_stats

/-! ## Job Store (src/jobs/manager.py) -/

/-- The dict built by manager.update_status before `doc_ref.update`:
status always; container_id only when DISPATCHED and truthy; started_at on
RUNNING; completed_at on COMPLETED or FAILED; error_message when truthy. -/
def update_status_patch (status : JobStatus) (container_id : Option String)
    (error_message : Option String) (now : Nat) : Patch where
  status := some status
  container_id :=
    if status = .dispatched ∧ pyTruthy container_id then container_id else none
  started_at := if status = .running then some now else none
  completed_at :=
    if status = .completed ∨ status = .failed then some now else none
  error_message := if pyTruthy error_message then error_message else none

/-- manager.update_status applied to the job document. -/
def update_status (doc : JobDoc) (status : JobStatus)
    (container_id : Option String) (error_message : Option String)
    (now : Nat) : JobDoc :=
  doc.merge (update_status_patch status container_id error_message now)

/-- manager.fail_job: update_status with FAILED and an error message. -/
def fail_job (doc : JobDoc) (error_message : String) (now : Nat) : JobDoc :=
  update_status doc .failed none (some error_message) now

/-- manager.complete_job: one combined write setting COMPLETED, results,
alerts, progress 100/100, completed_at, and stats when given. -/
def complete_job (doc : JobDoc) (results : ScanResults)
    (alerts : List ScanAlert) (scan_stats : Option ScanStats)
    (now : Nat) : JobDoc :=
  doc.merge
    { status := some .completed
      results := some results
      alerts := some alerts
      progress := some
        { phase := "completed"
          spider_progress := 100
          active_scan_progress := 100
          message := "Scan complete" }
      completed_at := some now
      scan_stats := scan_stats }

/-- router.cancel_scan on a found job: terminal jobs are returned
untouched ("Job already ..."); otherwise the container is stopped and
status is set to CANCELLED via update_status. -/
def cancel_scan (doc : JobDoc) (now : Nat) : JobDoc :=
  if doc.status.isTerminal then doc
  else update_status doc .cancelled none none now

/-! ## Worker scoring (workers/zap/agent.py get_results) -/

/-- Severity buckets used while counting findings. -/
inductive Severity where
  | high
  | medium
  | low
  | informational
deriving DecidableEq, Repr

/-- agent.get_results risk classification:
`risk = (alert.get("risk") or "Informational").lower()` then compared
against "high"/"medium"/"low", defaulting to informational. -/
def classify_risk (risk : Option String) : Severity :=
  let r := (pyOr risk "Informational").toLower
  if r = "high" then .high
  else if r = "medium" then .medium
  else if r = "low" then .low
  else .informational

/-- Python `round` on a value k/2 (k an integer): exact when k is even,
round-half-to-even when k is odd. -/
def pyRoundHalf (k : Int) : Int :=
  if k % 2 = 0 then k / 2
  else if ((k - 1) / 2) % 2 = 0 then (k - 1) / 2 else (k + 1) / 2

/-- agent.get_results score:
`raw_score = 100 - (high*10 + medium*5 + low*2 + informational*0.5)`;
`score = max(0, round(raw_score))`.  raw_score is the half-integer
twiceRaw/2 with twiceRaw = 200 - 20*high - 10*medium - 4*low - informational. -/
def get_results_score (high medium low informational : Nat) : Int :=
  let twiceRaw : Int :=
    200 - 20 * (high : Int) - 10 * (medium : Int) - 4 * (low : Int)
      - (informational : Int)
  max 0 (pyRoundHalf twiceRaw)

/-- Severity counters accumulated by the get_results loop. -/
structure SevCounts where
  high : Nat := 0
  medium : Nat := 0
  low : Nat := 0
  informational : Nat := 0
deriving DecidableEq, Repr

/-- One iteration of the counting loop in agent.get_results. -/
def count_step (c : SevCounts) (risk : Option String) : SevCounts :=
  match classify_risk risk with
  | .high => { c with high := c.high + 1 }
  | .medium => { c with medium := c.medium + 1 }
  | .low => { c with low := c.low + 1 }
  | .informational => { c with informational := c.informational + 1 }

/-- agent.get_results on the list of raw findings (each modelled by its
"risk" field): classify and count each, then score the counts. -/
def get_results (risks : List (Option String)) : ScanResults :=
  let c := risks.foldl count_step {}
  { high := c.high
    medium := c.medium
    low := c.low
    informational := c.informational
    score := get_results_score c.high c.medium c.low c.informational }

/-- Modelled from the spec: `clamp(round(100 - (high*10 + medium*5 + low*2
+ informational*0.5)), 0, 100)` with the same rounding. -/
def specClampScore (high medium low informational : Nat) : Int :=
  let twiceRaw : Int :=
    200 - 20 * (high : Int) - 10 * (medium : Int) - 4 * (low : Int)
      - (informational : Int)
  min 100 (max 0 (pyRoundHalf twiceRaw))

/-! ## Dispatcher (src/jobs/dispatcher.py) -/

/-- Metadata returned after launching a worker container. -/
structure ContainerInfo where
  container_id : String
  name : String
  image : String
deriving DecidableEq, Repr

/-- A container known to the local Docker daemon. -/
structure Container where
  id : String
  name : String
  image : String
  labels : List (String × String)
  status : String
deriving DecidableEq, Repr

/-- The Docker daemon state visible to the dispatcher. -/
structure DockerState where
  containers : List Container
deriving DecidableEq, Repr

/-- dispatcher._count_running_workers: containers filtered by
label cybersorted.role=worker and status running. -/
def _count_running_workers (st : DockerState) : Nat :=
  (st.containers.filter (fun c =>
    c.status == "running" && c.labels.contains ("cybersorted.role", "worker"))).length

/-- dispatcher.launch_worker.  The admission check runs before any
container is started; on success the runtime appends the new container.
runOk=false models a Docker APIError from containers.run (wrapped into
DispatchError, no container added); newId is the daemon-assigned id. -/
def launch_worker (st : DockerState) (job_id image : String)
    (maxConcurrentScans : Nat) (runOk : Bool) (newId : String) :
    DockerState × Except String ContainerInfo :=
  let container_name := "zap-worker-" ++ job_id.take 8
  let running := _count_running_workers st
  if running ≥ maxConcurrentScans then
    (st, .error s!"Concurrent scan limit reached ({running}/{maxConcurrentScans}). Please wait for a running scan to complete.")
  else if runOk then
    let c : Container :=
      { id := newId
        name := container_name
        image := image
        labels := [("cybersorted.job_id", job_id), ("cybersorted.role", "worker")]
        status := "running" }
    ({ containers := st.containers ++ [c] },
      .ok { container_id := newId, name := container_name, image := image })
  else
    (st, .error "Docker API error")

/-! ## Bridge (src/jobs/bridge.py) -/

/-- bridge._STATUS_MAP: pentest-jobs status → security-scans status. -/
def _STATUS_MAP : List (String × String) :=
  [("queued", "pending"), ("dispatched", "pending"), ("running", "scanning"),
    ("completed", "completed"), ("failed", "failed"), ("cancelled", "failed")]

/-- bridge._PHASE_STATUS_MAP: progress phase → security-scans status. -/
def _PHASE_STATUS_MAP : List (String × String) :=
  [("queued", "pending"), ("starting", "pending"), ("crawling", "crawling"),
    ("scanning", "scanning"), ("completed", "completed"), ("failed", "failed")]

/-- The external status computed by bridge.sync_to_security_scan lines
72-81: phase-based value when the phase is in _PHASE_STATUS_MAP, else
_STATUS_MAP.get(status, "pending"); then terminal statuses overwrite with
_STATUS_MAP[status] (none models the KeyError of a direct index miss). -/
def bridge_status (status : JobStatus) (phase : String) : Option String :=
  let base : String :=
    match _PHASE_STATUS_MAP.lookup phase with
    | some s => s
    | none => (_STATUS_MAP.lookup status.value).getD "pending"
  if status.isTerminal then _STATUS_MAP.lookup status.value
  else some base

/-- Follows the spec text for the two-level mapping: the phase table takes
precedence over the coarser status table, and any internal terminal status
overrides the phase-derived status with its fixed external status. -/
def specBridgeStatus (status : JobStatus) (phase : String) : String :=
  if status.isTerminal then (_STATUS_MAP.lookup status.value).getD "pending"
  else
    match _PHASE_STATUS_MAP.lookup phase with
    | some s => s
    | none => (_STATUS_MAP.lookup status.value).getD "pending"

/-- The fields of the job that drive the sync control flow. -/
structure BridgeJob where
  company_id : Option String := none
  scan_id : Option String := none
  status : JobStatus := .queued
  phase : String := "queued"
deriving DecidableEq, Repr

/-- How a run of bridge.sync_to_security_scan ended. -/
inductive SyncResult where
  | noop
  | wrote
  | writeFailed
deriving DecidableEq, Repr

/-- bridge.sync_to_security_scan control flow.  clientExc (some e) models
firestore.Client raising inside _get_bridge_db — that call sits outside the
try block guarding scan_ref.update, so the exception propagates; writeExc
models scan_ref.update raising — caught, logged, swallowed. -/
def sync_to_security_scan (job : BridgeJob) (clientExc : Option String)
    (writeExc : Option String) : Except String SyncResult :=
  if !(pyTruthy job.company_id) || !(pyTruthy job.scan_id) then .ok .noop
  else
    match clientExc with
    | some e => .error e
    | none =>
      match writeExc with
      | some _ => .ok .writeFailed
      | none => .ok .wrote

/-! ## Worker passive-scan wait loop (workers/zap/agent.py) -/

/-- The percentage pushed while records remain:
`progress = min(95, 100 - remaining)`. -/
def passive_progress (remaining : Nat) : Int :=
  min 95 (100 - (remaining : Int))

/-- agent.wait_for_passive_scan modelled over the sequence of polls of
pscan/view/recordsToScan (none = the query raised).  Returns the list of
active_scan_progress values written, in order: inside the loop a value is
written only when it differs from last_progress; remaining zero or a query
error breaks the loop, after which 100 is written. -/
def wait_for_passive_scan_writes : List (Option Nat) → Int → List Int
  | [], _ => []
  | none :: _, _ => [100]
  | some 0 :: _, _ => [100]
  | some (r + 1) :: rest, last_progress =>
    let progress := passive_progress (r + 1)
    if progress != last_progress then
      progress :: wait_for_passive_scan_writes rest progress
    else
      wait_for_passive_scan_writes rest last_progress

/-! ## Polling orchestrator (src/tools/scanning/web_application.py) -/

def POLL_INTERVAL_SECONDS : Nat := 5

def MAX_POLL_DURATION_SECONDS : Nat := 3600

/-- A snapshot returned by get_job during polling. -/
structure PolledJob where
  status : JobStatus
  error_message : Option String := none
  results : Option ScanResults := none
deriving DecidableEq, Repr

/-- A Job Store write performed by the polling loop. -/
inductive StoreEff where
  | failJobEff (job_id : String) (message : String)
deriving DecidableEq, Repr

/-- The structured error dict returned to the MCP caller. -/
structure McpError where
  error : String
  job_id : String
  status : Option String := none
deriving DecidableEq, Repr

/-- What scan_web_application returns after the poll loop. -/
inductive PollReturn where
  | resultsFor (job : PolledJob)
  | errorReturn (e : McpError)
deriving DecidableEq, Repr

/-- The poll loop of scan_web_application: each iteration sleeps 5s,
increments elapsed, and reads the job; fuel counts the iterations still
admitted by `elapsed < MAX_POLL_DURATION_SECONDS`; exhausting it is the
timeout path, which persists FAILED via fail_job and returns the
structured timeout error. -/
def poll_from (job_id : String) (reads : Nat → Option PolledJob) :
    Nat → Nat → List StoreEff × PollReturn
  | _, 0 =>
    ([.failJobEff job_id "Scan timed out after 1 hour"],
      .errorReturn
        { error := "Scan timed out after 1 hour"
          job_id := job_id
          status := some "failed" })
  | i, fuel + 1 =>
    match reads i with
    | none => ([], .errorReturn { error := "Job disappeared", job_id := job_id })
    | some current =>
      if current.status = .completed then ([], .resultsFor current)
      else if current.status = .failed ∨ current.status = .cancelled then
        ([], .errorReturn
          { error := pyOr current.error_message ("Scan " ++ current.status.value)
            job_id := job_id
            status := some current.status.value })
      else poll_from job_id reads (i + 1) fuel

/-- scan_web_application's loop runs while elapsed < 3600 with elapsed
advancing by 5 per iteration: exactly 3600/5 = 720 reads before timeout. -/
def scan_poll (job_id : String) (reads : Nat → Option PolledJob) :
    List StoreEff × PollReturn :=
  poll_from job_id reads 0 (MAX_POLL_DURATION_SECONDS / POLL_INTERVAL_SECONDS)

/-! ## Worker main (workers/zap/agent.py) -/

/-- agent.update_job: merges the data dict into the job document inside a
try/except that swallows any Firestore failure.  writeOk=false models a
raised-and-logged store exception: the document is unchanged and nothing
propagates.  A write that was never attempted (a phase raised before
reaching it) has the same document effect as a failed one. -/
def update_job (doc : JobDoc) (writeOk : Bool) (p : Patch) : JobDoc :=
  if writeOk then doc.merge p else doc

/-- The initial running/started_at write at the top of agent.main. -/
def worker_running_patch (now : Nat) : Patch :=
  { status := some .running
    started_at := some now
    progress := some
      { phase := "starting"
        spider_progress := 0
        active_scan_progress := 0
        message := "Initialising scanner..." } }

/-- The status=running write at the start of agent.run_spider. -/
def worker_spider_start_patch : Patch :=
  { status := some .running
    progress := some
      { phase := "crawling"
        spider_progress := 0
        active_scan_progress := 0
        message := "Discovering pages..." } }

/-- A progress-only write made during the crawl/scan phases. -/
def worker_progress_patch (p : JobProgress) : Patch :=
  { progress := some p }

/-- The final combined write of agent.main on success. -/
def worker_completed_patch (results : ScanResults) (alerts : List ScanAlert)
    (stats : ScanStats) (now : Nat) : Patch :=
  { status := some .completed
    results := some results
    alerts := some alerts
    scan_stats := some stats
    completed_at := some now
    progress := some
      { phase := "completed"
        spider_progress := 100
        active_scan_progress := 100
        message := "Scan complete" } }

/-- The write made by the top-level failure handler of agent.main. -/
def worker_failed_patch (err : String) (now : Nat) : Patch :=
  { status := some .failed
    error_message := some err
    completed_at := some now
    progress := some
      { phase := "failed"
        spider_progress := 0
        active_scan_progress := 0
        message := "Failed: " ++ err } }

/-- One run of the worker: which store writes succeed, whether a scan
phase raised (and with what message), and the scan outputs. -/
structure WorkerTrace where
  runWriteOk : Bool := true
  spiderWriteOk : Bool := true
  progressWrites : List (Bool × JobProgress) := []
  scanRaises : Option String := none
  results : ScanResults := {}
  alerts : List ScanAlert := []
  stats : ScanStats := {}
  finalWriteOk : Bool := true
  failWriteOk : Bool := true
deriving Repr

/-- agent.main: the initial running write, the spider-start write, a
sequence of progress-only writes, then either the top-level except handler
(a phase raised: failed write, sys.exit(1)) or the final completed write
and a normal return (exit code 0).  All store writes go through update_job,
so no write failure changes the control flow.  The inner try around the
failed write is redundant in the model because update_job never throws. -/
def worker_main (doc : JobDoc) (t : WorkerTrace) (now : Nat) : JobDoc × Nat :=
  let d1 := update_job doc t.runWriteOk (worker_running_patch now)
  let d2 := update_job d1 t.spiderWriteOk worker_spider_start_patch
  let d3 := t.progressWrites.foldl
    (fun d wp => update_job d wp.1 (worker_progress_patch wp.2)) d2
  match t.scanRaises with
  | some err => (update_job d3 t.failWriteOk (worker_failed_patch err now), 1)
  | none =>
    (update_job d3 t.finalWriteOk
      (worker_completed_patch t.results t.alerts t.stats now), 0)

/-! ## Concrete fixtures used by witnesses and counterexamples -/

/-- A job document that has already completed. -/
def exampleCompletedDoc : JobDoc := { status := .completed }

/-- A job document in the RUNNING state. -/
def exampleRunningDoc : JobDoc := { status := .running }

/-- A job document freshly dispatched. -/
def exampleDispatchedDoc : JobDoc := { status := .dispatched }

/-- A running, non-terminal poll snapshot. -/
def examplePolledRunning : PolledJob := { status := .running }

/-- An APP-sourced job with both bridge correlation ids present. -/
def exampleBridgeJob : BridgeJob :=
  { company_id := some "acme"
    scan_id := some "scan-7"
    status := .running
    phase := "crawling" }

/-- An MCP-sourced job: no company_id, no scan_id. -/
def exampleMcpBridgeJob : BridgeJob := { status := .running }

/-- A running worker container as the dispatcher launches them. -/
def exampleWorkerContainer (n : Nat) : Container :=
  { id := s!"cid-{n}"
    name := s!"zap-worker-{n}"
    image := "cybersorted/zap-worker:latest"
    labels := [("cybersorted.job_id", s!"job-{n}"), ("cybersorted.role", "worker")]
    status := "running" }

/-- A daemon already running three workers. -/
def exampleBusyDocker : DockerState :=
  { containers :=
      [exampleWorkerContainer 1, exampleWorkerContainer 2, exampleWorkerContainer 3] }

/-- A daemon with no containers. -/
def exampleEmptyDocker : DockerState := { containers := [] }

/-- A worker run in which every phase succeeds but the final completed
write fails. -/
def exampleTraceFinalFail : WorkerTrace := { finalWriteOk := false }

/-! ## Helper lemmas -/

/-- Rounding a half-integer k/2 with k ≤ 200 never exceeds 100. -/
lemma pyRoundHalf_le_100 (k : Int) (h : k ≤ 200) : pyRoundHalf k ≤ 100 := by
  unfold pyRoundHalf
  split
  · omega
  · split <;> omega

/-- The counting loop of get_results computes countP of each bucket. -/
lemma foldl_count_step_eq (risks : List (Option String)) (c : SevCounts) :
    (risks.foldl count_step c).high
        = c.high + risks.countP (fun r => classify_risk r == Severity.high)
      ∧ (risks.foldl count_step c).medium
        = c.medium + risks.countP (fun r => classify_risk r == Severity.medium)
      ∧ (risks.foldl count_step c).low
        = c.low + risks.countP (fun r => classify_risk r == Severity.low)
      ∧ (risks.foldl count_step c).informational
        = c.informational
            + risks.countP (fun r => classify_risk r == Severity.informational) := by
  induction risks generalizing c with
  | nil => simp
  | cons r rs ih =>
    obtain ⟨ih1, ih2, ih3, ih4⟩ := ih (count_step c r)
    simp only [List.foldl_cons, List.countP_cons, ih1, ih2, ih3, ih4]
    unfold count_step
    rcases hr : classify_risk r <;> simp [hr] <;> omega

/-- The worker score agrees with the clamp form for every count vector. -/
lemma get_results_score_eq_clamp (h m l i : Nat) :
    get_results_score h m l i = specClampScore h m l i := by
  unfold get_results_score specClampScore
  have hb : pyRoundHalf
      (200 - 20 * (h : Int) - 10 * (m : Int) - 4 * (l : Int) - (i : Int))
        ≤ 100 :=
    pyRoundHalf_le_100 _ (by omega)
  have hmax : max 0 (pyRoundHalf
      (200 - 20 * (h : Int) - 10 * (m : Int) - 4 * (l : Int) - (i : Int)))
        ≤ 100 :=
    max_le (by norm_num) hb
  rw [min_eq_right hmax]

/-! ## C1 — worker scoring -/

/-- C1: for every run of the worker's results step, the severity counts
are obtained by classifying each finding's risk case-insensitively against
high/medium/low (defaulting to informational), and the computed score
equals clamp(round(100 - (high*10 + medium*5 + low*2 + informational*0.5)),
0, 100); counts {0,0,0,0} give 100, {high:1} gives 90, {high:11} gives 0,
and {medium:2, low:5} gives 80. -/
theorem c1_score_formula (risks : List (Option String)) :
    ((get_results risks).score
        = specClampScore (get_results risks).high (get_results risks).medium
            (get_results risks).low (get_results risks).informational)
      ∧ (get_results risks).high
        = risks.countP (fun r => classify_risk r == Severity.high)
      ∧ (get_results risks).medium
        = risks.countP (fun r => classify_risk r == Severity.medium)
      ∧ (get_results risks).low
        = risks.countP (fun r => classify_risk r == Severity.low)
      ∧ (get_results risks).informational
        = risks.countP (fun r => classify_risk r == Severity.informational)
      ∧ get_results_score 0 0 0 0 = 100
      ∧ get_results_score 1 0 0 0 = 90
      ∧ get_results_score 11 0 0 0 = 0
      ∧ get_results_score 0 2 5 0 = 80 := by
  obtain ⟨h1, h2, h3, h4⟩ := foldl_count_step_eq risks ({} : SevCounts)
  refine ⟨?_, ?_, ?_, ?_, ?_, by decide, by decide, by decide, by decide⟩
  · exact get_results_score_eq_clamp _ _ _ _
  · simpa using h1
  · simpa using h2
  · simpa using h3
  · simpa using h4

/-- Every value the passive loop writes is a sub-100 in-loop value (≤ 95)
or the final completion write of exactly 100. -/
lemma wait_writes_le (polls : List (Option Nat)) (last_progress : Int) :
    ∀ w ∈ wait_for_passive_scan_writes polls last_progress,
      w ≤ 95 ∨ w = 100 := by
  induction polls generalizing last_progress with
  | nil => simp [wait_for_passive_scan_writes]
  | cons p ps ih =>
    intro w hw
    match p with
    | none => simp [wait_for_passive_scan_writes] at hw; right; exact hw
    | some 0 => simp [wait_for_passive_scan_writes] at hw; right; exact hw
    | some (r + 1) =>
      rw [wait_for_passive_scan_writes] at hw
      by_cases hne : passive_progress (r + 1) != last_progress
      · rw [if_pos hne] at hw
        rcases List.mem_cons.mp hw with h | h
        · left
          rw [h]
          exact min_le_left 95 _
        · exact ih _ w h
      · rw [if_neg hne] at hw
        exact ih _ w hw

/-! ## C2 — terminal-status monotonicity -/

/-- C2 counterexample: fail_job applied to an already COMPLETED job
overwrites the terminal status with FAILED, so a store operation does
change the status after it is terminal. -/
theorem c2_terminal_overwrite_counterexample :
    JobStatus.isTerminal exampleCompletedDoc.status = true
      ∧ (fail_job exampleCompletedDoc "boom" 3).status = JobStatus.failed
      ∧ (fail_job exampleCompletedDoc "boom" 3).status
          ≠ exampleCompletedDoc.status := by
  decide

/-- C2 amended: only the cancel path guards terminal statuses — it returns
a terminal job unchanged — while update_status, fail_job and complete_job
write the supplied status unconditionally (last writer wins), so a
terminal status is not protected against later writes. -/
theorem c2_status_transitions_amended (doc : JobDoc) (s : JobStatus)
    (cid em : Option String) (msg : String) (res : ScanResults)
    (al : List ScanAlert) (st : Option ScanStats) (now : Nat) :
    (doc.status.isTerminal = true → cancel_scan doc now = doc)
      ∧ (update_status doc s cid em now).status = s
      ∧ (fail_job doc msg now).status = .failed
      ∧ (complete_job doc res al st now).status = .completed := by
  refine ⟨fun h => ?_, ?_, ?_, ?_⟩
  · simp [cancel_scan, h]
  · simp [update_status, JobDoc.merge, update_status_patch]
  · simp [fail_job, update_status, JobDoc.merge, update_status_patch]
  · simp [complete_job, JobDoc.merge]

/-- C2 witness: the guarded cancel path on a concrete completed job, and
an unconditional status write on a concrete running job. -/
theorem c2_status_transitions_amended_witness :
    cancel_scan exampleCompletedDoc 5 = exampleCompletedDoc
      ∧ (update_status exampleRunningDoc .completed none none 5).status
          = JobStatus.completed :=
  ⟨(c2_status_transitions_amended exampleCompletedDoc .completed none none
      "m" {} [] none 5).1 (by decide),
    (c2_status_transitions_amended exampleRunningDoc .completed none none
      "m" {} [] none 5).2.1⟩

/-! ## C6 — update_status side effects -/

/-- C6 counterexample: CANCELLED is terminal, yet update_status with
CANCELLED does not set the completed timestamp (the code sets completed_at
only for COMPLETED and FAILED). -/
theorem c6_cancelled_no_completed_at_counterexample :
    JobStatus.isTerminal .cancelled = true
      ∧ (update_status exampleRunningDoc .cancelled none none 7).completed_at
          = none := by
  decide

/-- C6 amended: RUNNING sets the started timestamp; COMPLETED and FAILED
set the completed timestamp, while CANCELLED sets neither; an error
message is recorded exactly when a non-empty one is supplied — fail_job
always supplies its message. -/
theorem c6_update_status_side_effects_amended (doc : JobDoc) (s : JobStatus)
    (cid em : Option String) (msg : String) (now : Nat) :
    ((update_status doc s cid em now).started_at
        = if s = .running then some now else doc.started_at)
      ∧ ((update_status doc s cid em now).completed_at
        = if s = .completed ∨ s = .failed then some now else doc.completed_at)
      ∧ ((update_status doc .cancelled cid em now).completed_at
        = doc.completed_at)
      ∧ ((update_status doc s cid em now).error_message
        = if pyTruthy em then em else doc.error_message)
      ∧ ((fail_job doc msg now).status = .failed)
      ∧ ((fail_job doc msg now).error_message
        = if msg = "" then doc.error_message else some msg) := by
  refine ⟨?_, ?_, ?_, ?_, ?_, ?_⟩
  · by_cases hs : s = .running <;>
      simp [update_status, JobDoc.merge, update_status_patch, hs]
  · by_cases hs : s = .completed ∨ s = .failed <;>
      simp [update_status, JobDoc.merge, update_status_patch, hs]
  · simp [update_status, JobDoc.merge, update_status_patch]
  · cases em with
    | none => simp [update_status, JobDoc.merge, update_status_patch, pyTruthy]
    | some e =>
      by_cases he : e = "" <;>
        simp [update_status, JobDoc.merge, update_status_patch, pyTruthy, he]
  · simp [fail_job, update_status, JobDoc.merge, update_status_patch]
  · by_cases hm : msg = "" <;>
      simp [fail_job, update_status, JobDoc.merge, update_status_patch,
        pyTruthy, hm]

/-! ## C3 — dispatcher admission control -/

/-- C3: when the count of running worker-labelled containers is at or
above the ceiling, launch_worker fails with the capacity error and the
runtime state is unchanged (no container run); below the ceiling the
container is started with name zap-worker-{first 8 chars of the job id}
and labels carrying the job id and the fixed worker role tag. -/
theorem c3_launch_admission (st : DockerState)
    (job_id image newId : String) (ceiling : Nat) (runOk : Bool) :
    (_count_running_workers st ≥ ceiling →
        launch_worker st job_id image ceiling runOk newId
          = (st, .error s!"Concurrent scan limit reached ({_count_running_workers st}/{ceiling}). Please wait for a running scan to complete."))
      ∧ (_count_running_workers st < ceiling →
        launch_worker st job_id image ceiling true newId
          = ({ containers := st.containers ++
                [{ id := newId
                   name := "zap-worker-" ++ job_id.take 8
                   image := image
                   labels := [("cybersorted.job_id", job_id),
                     ("cybersorted.role", "worker")]
                   status := "running" }] },
              .ok { container_id := newId
                    name := "zap-worker-" ++ job_id.take 8
                    image := image })) := by
  constructor
  · intro h
    simp only [launch_worker]
    rw [if_pos h]
  · intro h
    simp only [launch_worker]
    rw [if_neg (by omega)]
    simp

/-- C3 witness: with ceiling 3 and three active workers the launch is
refused and the daemon state is untouched; on an empty daemon the
container is created with the derived name and labels. -/
theorem c3_launch_admission_witness :
    launch_worker exampleBusyDocker "0a1b2c3d-e5f6" "img" 3 true "cid-9"
        = (exampleBusyDocker,
            .error "Concurrent scan limit reached (3/3). Please wait for a running scan to complete.")
      ∧ launch_worker exampleEmptyDocker "0a1b2c3d-e5f6" "img" 3 true "cid-9"
        = ({ containers :=
              [{ id := "cid-9"
                 name := "zap-worker-0a1b2c3d"
                 image := "img"
                 labels := [("cybersorted.job_id", "0a1b2c3d-e5f6"),
                   ("cybersorted.role", "worker")]
                 status := "running" }] },
            .ok { container_id := "cid-9"
                  name := "zap-worker-0a1b2c3d"
                  image := "img" }) := by
  constructor
  · have h := (c3_launch_admission exampleBusyDocker "0a1b2c3d-e5f6" "img"
      "cid-9" 3 true).1 (by decide)
    rw [h]
    rfl
  · have h := (c3_launch_admission exampleEmptyDocker "0a1b2c3d-e5f6" "img"
      "cid-9" 3 true).2 (by decide)
    rw [h]
    rfl

/-! ## C4 — passive-phase percentage mapping -/

/-- C4: in the passive-scan wait loop, a zero remaining count (or a failed
counter query, treated as completion) ends the loop and writes exactly
100; for a nonzero remaining count the value written is
min(95, 100 - remaining), which is strictly below 100; every write the
loop ever makes is either ≤ 95 or the final 100. -/
theorem c4_passive_never_early_100 (polls rest : List (Option Nat))
    (last_progress : Int) (r : Nat) :
    wait_for_passive_scan_writes (some 0 :: rest) last_progress = [100]
      ∧ wait_for_passive_scan_writes (none :: rest) last_progress = [100]
      ∧ (0 < r → passive_progress r < 100
          ∧ wait_for_passive_scan_writes (some r :: rest) last_progress
            = if passive_progress r != last_progress then
                passive_progress r
                  :: wait_for_passive_scan_writes rest (passive_progress r)
              else wait_for_passive_scan_writes rest last_progress)
      ∧ (∀ w ∈ wait_for_passive_scan_writes polls last_progress,
          w ≤ 95 ∨ w = 100) := by
  refine ⟨rfl, rfl, fun hr => ⟨?_, ?_⟩, wait_writes_le polls last_progress⟩
  · have h95 : passive_progress r ≤ 95 := min_le_left 95 _
    omega
  · match r, hr with
    | r + 1, _ => rfl

/-- C4 witness: remaining 5 maps strictly below 100, and remaining 0
writes exactly 100. -/
theorem c4_passive_never_early_100_witness :
    wait_for_passive_scan_writes [some 0] 0 = [100]
      ∧ passive_progress 5 < 100 :=
  ⟨(c4_passive_never_early_100 [] [] 0 5).1,
    ((c4_passive_never_early_100 [] [] 0 5).2.2.1 (by decide)).1⟩

/-! ## C5 — bridge two-level status mapping -/

/-- C5: the external status computed by the Bridge equals the spec's
two-level mapping — the phase table takes precedence over the coarser
status table, and any internal terminal status overrides the phase-derived
value with its fixed external terminal status; in particular phase
"crawling" with internal status running yields "crawling", and
completed/failed/cancelled map to completed/failed/failed for any phase. -/
theorem c5_bridge_status_mapping (status : JobStatus) (phase : String) :
    bridge_status status phase = some (specBridgeStatus status phase)
      ∧ bridge_status .running "crawling" = some "crawling"
      ∧ bridge_status .completed phase = some "completed"
      ∧ bridge_status .failed phase = some "failed"
      ∧ bridge_status .cancelled phase = some "failed" := by
  refine ⟨?_, rfl, rfl, rfl, rfl⟩
  cases status <;> rfl

/-! ## C7 — bridge sync error policy -/

/-- C7 counterexample: on a job with both bridge ids present, a failure
while obtaining the external client (firestore.Client inside
_get_bridge_db, which sits outside the try block) propagates out of sync,
so not every external-store failure is absorbed. -/
theorem c7_client_failure_counterexample :
    sync_to_security_scan exampleBridgeJob (some "client boom") none
      = Except.error "client boom" := by
  rfl

/-- C7 amended: exceptions raised by the merge write itself are caught and
never propagated (sync returns normally for any write outcome once the
client is obtained, and is a pure no-op without both correlation ids), but
an exception raised while obtaining the external client propagates to the
caller. -/
theorem c7_sync_error_policy_amended (job : BridgeJob)
    (clientExc writeExc : Option String) :
    (∃ r, sync_to_security_scan job none writeExc = .ok r)
      ∧ ((pyTruthy job.company_id = false ∨ pyTruthy job.scan_id = false) →
          sync_to_security_scan job clientExc writeExc = .ok .noop) := by
  constructor
  · unfold sync_to_security_scan
    by_cases hids : (!(pyTruthy job.company_id) || !(pyTruthy job.scan_id)) = true
    · exact ⟨.noop, by rw [if_pos hids]⟩
    · cases writeExc with
      | none => exact ⟨.wrote, by rw [if_neg hids]⟩
      | some e => exact ⟨.writeFailed, by rw [if_neg hids]⟩
  · intro h
    unfold sync_to_security_scan
    rw [if_pos (by rcases h with h | h <;> simp [h])]

/-- C7 witness: a failed merge write on a fully-correlated job is
swallowed, and an MCP job without ids is a no-op even when everything
would fail. -/
theorem c7_sync_error_policy_amended_witness :
    (∃ r, sync_to_security_scan exampleBridgeJob none (some "disk full")
        = .ok r)
      ∧ sync_to_security_scan exampleMcpBridgeJob (some "boom") (some "boom")
        = .ok .noop :=
  ⟨(c7_sync_error_policy_amended exampleBridgeJob (some "x")
      (some "disk full")).1,
    (c7_sync_error_policy_amended exampleMcpBridgeJob (some "boom")
      (some "boom")).2 (by decide)⟩

/-! ## C9 — progress percentages outside [0,100] -/

/-- C9 at the failing input: with 101 records remaining, the passive loop
writes active_scan_progress = min(95, 100-101) = -1, a value the job
model's own Field(ge=0, le=100) constraint rejects. -/
theorem c9_progress_bound_violation :
    wait_for_passive_scan_writes [some 101] 0 = [-1]
      ∧ passive_progress 101 = -1
      ∧ ¬ JobProgress.valid
          { phase := "scanning"
            spider_progress := 100
            active_scan_progress := passive_progress 101
            message := "Passive analysis... 101 records remaining" } := by
  refine ⟨?_, by decide, by decide⟩
  simp [wait_for_passive_scan_writes, passive_progress]

/-! ## C8 — polling timeout -/

/-- If every read in the remaining window is a present, non-terminal job,
the poll loop exhausts its fuel and takes the timeout path. -/
lemma poll_from_timeout (job_id : String) (reads : Nat → Option PolledJob) :
    ∀ fuel i : Nat,
      (∀ k, i ≤ k → k < i + fuel →
        ∃ j, reads k = some j ∧ j.status.isTerminal = false) →
      poll_from job_id reads i fuel
        = ([.failJobEff job_id "Scan timed out after 1 hour"],
            .errorReturn
              { error := "Scan timed out after 1 hour"
                job_id := job_id
                status := some "failed" }) := by
  intro fuel
  induction fuel with
  | zero => intro i _; rfl
  | succ n ih =>
    intro i h
    obtain ⟨j, hj, hterm⟩ := h i (le_refl i) (by omega)
    have h1 : ¬ j.status = .completed := by
      intro e; rw [e] at hterm; exact absurd hterm (by decide)
    have h2 : ¬ (j.status = .failed ∨ j.status = .cancelled) := by
      intro e; rcases e with e | e <;> rw [e] at hterm <;>
        exact absurd hterm (by decide)
    have step : poll_from job_id reads i (n + 1)
        = poll_from job_id reads (i + 1) n := by
      simp only [poll_from, hj]
      rw [if_neg h1, if_neg h2]
    rw [step]
    exact ih (i + 1) (fun k hk1 hk2 => h k (by omega) (by omega))

/-- C8: when no read in the whole 3600s/5s window observes a terminal
status, the loop returns the structured timeout error (job id, failed
status, timeout message) and its one store effect is fail_job with the
timeout message — which, applied through the Job Store, sets status FAILED
and records that message. -/
theorem c8_poll_timeout (job_id : String) (reads : Nat → Option PolledJob)
    (doc : JobDoc) (now : Nat)
    (h : ∀ k, k < MAX_POLL_DURATION_SECONDS / POLL_INTERVAL_SECONDS →
      ∃ j, reads k = some j ∧ j.status.isTerminal = false) :
    scan_poll job_id reads
      = ([.failJobEff job_id "Scan timed out after 1 hour"],
          .errorReturn
            { error := "Scan timed out after 1 hour"
              job_id := job_id
              status := some "failed" })
      ∧ (fail_job doc "Scan timed out after 1 hour" now).status = .failed
      ∧ (fail_job doc "Scan timed out after 1 hour" now).error_message
          = some "Scan timed out after 1 hour" := by
  refine ⟨?_, ?_, ?_⟩
  · unfold scan_poll
    exact poll_from_timeout job_id reads _ 0 (fun k hk1 hk2 => h k (by omega))
  · simp [fail_job, update_status, JobDoc.merge, update_status_patch]
  · simp [fail_job, update_status, JobDoc.merge, update_status_patch, pyTruthy]

/-- C8 witness: a job that stays RUNNING for the whole window times out
with the structured error, and the forced store write is FAILED with the
timeout message. -/
theorem c8_poll_timeout_witness :
    scan_poll "job-1" (fun _ => some examplePolledRunning)
      = ([.failJobEff "job-1" "Scan timed out after 1 hour"],
          .errorReturn
            { error := "Scan timed out after 1 hour"
              job_id := "job-1"
              status := some "failed" })
      ∧ (fail_job exampleDispatchedDoc "Scan timed out after 1 hour" 9).status
          = .failed
      ∧ (fail_job exampleDispatchedDoc
          "Scan timed out after 1 hour" 9).error_message
          = some "Scan timed out after 1 hour" :=
  c8_poll_timeout "job-1" (fun _ => some examplePolledRunning)
    exampleDispatchedDoc 9 (fun _ _ => ⟨examplePolledRunning, rfl, rfl⟩)

/-! ## C10 — worker store-write failures -/

/-- A failed (or never attempted) store write leaves the document as it
was. -/
lemma update_job_false (d : JobDoc) (p : Patch) : update_job d false p = d :=
  rfl

/-- The initial running write can only move the status to RUNNING or leave
it, and never touches results. -/
lemma update_job_running_patch (d : JobDoc) (ok : Bool) (now : Nat) :
    ((update_job d ok (worker_running_patch now)).status = .running
        ∨ (update_job d ok (worker_running_patch now)).status = d.status)
      ∧ (update_job d ok (worker_running_patch now)).results = d.results := by
  cases ok <;> simp [update_job, worker_running_patch, JobDoc.merge]

/-- The spider-start write can only move the status to RUNNING or leave
it, and never touches results. -/
lemma update_job_spider_patch (d : JobDoc) (ok : Bool) :
    ((update_job d ok worker_spider_start_patch).status = .running
        ∨ (update_job d ok worker_spider_start_patch).status = d.status)
      ∧ (update_job d ok worker_spider_start_patch).results = d.results := by
  cases ok <;> simp [update_job, worker_spider_start_patch, JobDoc.merge]

/-- Progress-only writes never change status or results. -/
lemma progress_foldl_preserves (l : List (Bool × JobProgress)) (d : JobDoc) :
    (l.foldl (fun d wp => update_job d wp.1 (worker_progress_patch wp.2))
        d).status = d.status
      ∧ (l.foldl (fun d wp => update_job d wp.1 (worker_progress_patch wp.2))
        d).results = d.results := by
  induction l generalizing d with
  | nil => exact ⟨rfl, rfl⟩
  | cons wp rest ih =>
    obtain ⟨ih1, ih2⟩ := ih (update_job d wp.1 (worker_progress_patch wp.2))
    have hstep : (update_job d wp.1 (worker_progress_patch wp.2)).status
          = d.status
        ∧ (update_job d wp.1 (worker_progress_patch wp.2)).results
          = d.results := by
      cases hw : wp.1 <;> simp [update_job, worker_progress_patch, JobDoc.merge]
    exact ⟨by rw [List.foldl_cons, ih1, hstep.1],
      by rw [List.foldl_cons, ih2, hstep.2]⟩

/-- C10: every worker Firestore write goes through update_job, which
swallows store exceptions, so the exit code depends only on whether a scan
phase raised — never on any write outcome; in particular, when the scan
succeeds but the final completed write fails, the process still exits 0
while the stored job keeps a non-terminal status and no results. -/
theorem c10_worker_store_failures (doc : JobDoc) (t : WorkerTrace)
    (now : Nat) :
    ((worker_main doc t now).2 = if t.scanRaises.isSome then 1 else 0)
      ∧ (t.scanRaises = none → t.finalWriteOk = false →
          (worker_main doc t now).2 = 0
            ∧ ((worker_main doc t now).1.status = .running
                ∨ (worker_main doc t now).1.status = doc.status)
            ∧ (doc.status.isTerminal = false →
                (worker_main doc t now).1.status.isTerminal = false)
            ∧ (worker_main doc t now).1.results = doc.results) := by
  constructor
  · unfold worker_main
    cases t.scanRaises <;> simp
  · intro hnone hfail
    have hmain : worker_main doc t now
        = (t.progressWrites.foldl
            (fun d wp => update_job d wp.1 (worker_progress_patch wp.2))
            (update_job
              (update_job doc t.runWriteOk (worker_running_patch now))
              t.spiderWriteOk worker_spider_start_patch), 0) := by
      unfold worker_main
      rw [hnone, hfail]
      dsimp only
      rw [update_job_false]
    set d1 := update_job doc t.runWriteOk (worker_running_patch now) with hd1
    set d2 := update_job d1 t.spiderWriteOk worker_spider_start_patch with hd2
    obtain ⟨hp1, hp2⟩ := progress_foldl_preserves t.progressWrites d2
    obtain ⟨hs2, hr2⟩ := update_job_spider_patch d1 t.spiderWriteOk
    obtain ⟨hs1, hr1⟩ := update_job_running_patch doc t.runWriteOk now
    have hstat : (worker_main doc t now).1.status = .running
        ∨ (worker_main doc t now).1.status = doc.status := by
      rw [hmain]
      dsimp only
      rw [hp1]
      rcases hs2 with h | h
      · exact Or.inl h
      · rw [h]
        exact hs1
    refine ⟨by rw [hmain], hstat, fun hnt => ?_, ?_⟩
    · rcases hstat with h | h <;> rw [h]
      · rfl
      · exact hnt
    · rw [hmain]
      dsimp only
      rw [hp2, hr2, hr1]

/-- C10 witness: a run whose phases all succeed but whose final completed
write fails exits 0 and leaves the dispatched job non-terminal. -/
theorem c10_worker_store_failures_witness :
    (worker_main exampleDispatchedDoc exampleTraceFinalFail 9).2 = 0
      ∧ (worker_main exampleDispatchedDoc
          exampleTraceFinalFail 9).1.status.isTerminal = false
      ∧ (worker_main exampleDispatchedDoc
          exampleTraceFinalFail 9).1.results = none := by
  have h := (c10_worker_store_failures exampleDispatchedDoc
    exampleTraceFinalFail 9).2 rfl rfl
  exact ⟨h.1, h.2.2.1 (by decide), h.2.2.2⟩
